import Mathlib

/-
Verification of the dual-provider currency-analysis core of
`backend/server.py` (Currency Recognition API).

The Python source is shallowly embedded:
- JSON values (the result of `json.loads`) become the inductive `Json`;
- Python exceptions become `Except` values (`PyError` for exceptions in
  flight inside `analyze_currency`, `HTTPException` for what the HTTP
  caller sees);
- the external effects (the two LLM chat calls, `json.loads`, the MongoDB
  insert, `uuid.uuid4`, `datetime.utcnow`) are oracles collected in
  `AnalyzeEnv`; the Mongo collection is a `List AnalysisDoc`.
-/

set_option autoImplicit false

namespace CurrencyRecognition

/-- JSON values as produced by Python `json.loads`: `null`, booleans,
numbers (modelled as integers), strings, arrays and objects (association
lists, first binding wins on lookup). -/
inductive Json where
  | null : Json
  | bool (b : Bool) : Json
  | num (n : Int) : Json
  | str (s : String) : Json
  | arr (elems : List Json) : Json
  | obj (fields : List (String × Json)) : Json

/-- Name of the Python runtime type of a `Json` value, as it appears in
CPython error messages. -/
def pyTypeName : Json → String
  | .null => "NoneType"
  | .bool _ => "bool"
  | .num _ => "int"
  | .str _ => "str"
  | .arr _ => "list"
  | .obj _ => "dict"

/-- Python truthiness of a `Json` value: `None`, `False`, `0`, `""`, `[]`
and `{}` are falsy, everything else is truthy. -/
def pyTruthy : Json → Bool
  | .null => false
  | .bool b => b
  | .num n => n != 0
  | .str s => s != ""
  | .arr l => !l.isEmpty
  | .obj kvs => !kvs.isEmpty

/-- Python `len` on a `Json` value; raises `TypeError` on values without a
length (modelled as the error message string). -/
def pyLen : Json → Except String Nat
  | .str s => .ok s.length
  | .arr l => .ok l.length
  | .obj kvs => .ok kvs.length
  | other => .error ("object of type \x27" ++ pyTypeName other ++ "\x27 has no len()")

/-- Python `value.get(key, default)`: succeeds only when `value` is a dict,
otherwise raises `AttributeError` (modelled as the error message string). -/
def dict_get (j : Json) (key : String) (default : Json) : Except String Json :=
  match j with
  | .obj kvs => .ok ((kvs.lookup key).getD default)
  | other =>
      .error ("\x27" ++ pyTypeName other ++ "\x27 object has no attribute \x27get\x27")

/-- Pure lookup of a key in a `Json` object (`none` when the value is not an
object or the key is absent). Used only to state properties. -/
def jGet? (j : Json) (key : String) : Option Json :=
  match j with
  | .obj kvs => kvs.lookup key
  | _ => none

/-- The standard base64 alphabet used by `base64.b64encode`. -/
def base64_alphabet : String :=
  "ABCDEFGHIJKLMNOPQRSTUVWXYZabcdefghijklmnopqrstuvwxyz0123456789+/"

/-- Character of the base64 alphabet at index `n` (< 64). -/
def base64_char (n : Nat) : Char :=
  base64_alphabet.toList.getD n 'A'

/-- Standard base64 encoding of a byte sequence (each byte < 256), with
`=` padding, as performed by `base64.b64encode`. -/
def b64encode : List Nat → List Char
  | a :: b :: c :: rest =>
      base64_char (a / 4) :: base64_char (a % 4 * 16 + b / 16) ::
        base64_char (b % 16 * 4 + c / 64) :: base64_char (c % 64) :: b64encode rest
  | [a, b] =>
      [base64_char (a / 4), base64_char (a % 4 * 16 + b / 16), base64_char (b % 16 * 4), '=']
  | [a] => [base64_char (a / 4), base64_char (a % 4 * 16), '=', '=']
  | [] => []

/-- `convert_image_to_base64`: base64-encode the raw image bytes and decode
to a string (`base64.b64encode(image_bytes).decode("utf-8")`). -/
def convert_image_to_base64 (image_bytes : List Nat) : String :=
  String.mk (b64encode image_bytes)

/-- Python `str.startswith`: the candidate string begins with the given
text (character-wise prefix test). -/
def py_startswith (s pre : String) : Bool :=
  pre.toList.isPrefixOf s.toList

/-- Outcome of one external LLM chat call (`chat.send_message`): either the
provider returns response text, or the call raises an exception whose
`str()` is `e`. -/
inductive CallOutcome where
  | success (response : String)
  | raises (e : String)

/-- Provider label the OpenAI adapter stamps on fallback and error results. -/
def openai_provider_label : String := "OpenAI GPT-4o-mini"

/-- Provider label the Gemini adapter stamps on fallback and error results. -/
def gemini_provider_label : String := "Google Gemini 2.0 Flash"

/-- Body of `analyze_with_openai` inside the outer `try`: perform the call,
then try `json.loads` on the response text; on parse success return the
parsed value as-is, on parse failure return the raw-response dict. `loads`
is the `json.loads` oracle (`some` = parse success). An `.error` is the
exception that reaches the outer `except`. -/
def analyze_with_openai_body (loads : String → Option Json) (outcome : CallOutcome) :
    Except String Json :=
  match outcome with
  | .raises e => .error e
  | .success response =>
      match loads response with
      | some parsed => .ok parsed
      | none =>
          .ok (.obj [("raw_response", .str response),
                     ("provider", .str openai_provider_label)])

/-- `analyze_with_openai`: the body wrapped in the outer
`except Exception as e: return {"error": str(e), "provider": ...}`. Always
returns a value; never propagates an exception. -/
def analyze_with_openai (loads : String → Option Json) (outcome : CallOutcome) : Json :=
  match analyze_with_openai_body loads outcome with
  | .ok j => j
  | .error e => .obj [("error", .str e), ("provider", .str openai_provider_label)]

/-- Body of `analyze_with_gemini` inside the outer `try`; identical to the
OpenAI adapter body except for the provider label. -/
def analyze_with_gemini_body (loads : String → Option Json) (outcome : CallOutcome) :
    Except String Json :=
  match outcome with
  | .raises e => .error e
  | .success response =>
      match loads response with
      | some parsed => .ok parsed
      | none =>
          .ok (.obj [("raw_response", .str response),
                     ("provider", .str gemini_provider_label)])

/-- `analyze_with_gemini`: the body wrapped in the outer
`except Exception as e: return {"error": str(e), "provider": ...}`. -/
def analyze_with_gemini (loads : String → Option Json) (outcome : CallOutcome) : Json :=
  match analyze_with_gemini_body loads outcome with
  | .ok j => j
  | .error e => .obj [("error", .str e), ("provider", .str gemini_provider_label)]

/-- The combined dict built by `combine_ai_results`, with the `consensus`
and `discrepancies` fields as they stand after the function's mutations. -/
def combined_obj (openai_result gemini_result : Json)
    (consensus : List (String × Json)) (discrepancies : List Json) : Json :=
  Json.obj [("comparison", Json.str "dual_ai_analysis"),
            ("openai_summary", openai_result),
            ("gemini_summary", gemini_result),
            ("consensus", Json.obj consensus),
            ("discrepancies", Json.arr discrepancies)]

/-- `combine_ai_results`: extract `currencies_detected` from each result via
`.get(..., [])` (an `AttributeError` if a result is not a dict), and when
both extracted values are truthy compare their lengths: equal length sets
`consensus["currency_count_match"] = True`, unequal length appends the
discrepancy note. The `.error` case is the Python exception propagating out
of the function. -/
def combine_ai_results (openai_result gemini_result : Json) : Except String Json :=
  match dict_get openai_result "currencies_detected" (Json.arr []) with
  | .error e => .error e
  | .ok openai_currencies =>
    match dict_get gemini_result "currencies_detected" (Json.arr []) with
    | .error e => .error e
    | .ok gemini_currencies =>
      if pyTruthy openai_currencies && pyTruthy gemini_currencies then
        match pyLen openai_currencies with
        | .error e => .error e
        | .ok n_openai =>
          match pyLen gemini_currencies with
          | .error e => .error e
          | .ok n_gemini =>
            if n_openai = n_gemini then
              .ok (combined_obj openai_result gemini_result
                    [("currency_count_match", Json.bool true)] [])
            else
              .ok (combined_obj openai_result gemini_result
                    [] [Json.str "Different number of currencies detected"])
      else
        .ok (combined_obj openai_result gemini_result [] [])

/-- A FastAPI `HTTPException`: HTTP status code and detail string. -/
structure HTTPException where
  status_code : Nat
  detail : String

/-- An exception in flight inside `analyze_currency`: either an
`HTTPException` (a subclass of `Exception`, so caught by the catch-all) or
any other Python exception carrying its `str()`. -/
inductive PyError where
  | http (exc : HTTPException)
  | pyErr (msg : String)

/-- Python `str(e)` on an exception reaching the catch-all: starlette
`HTTPException.__str__` renders `"{status_code}: {detail}"`; other
exceptions render their message. -/
def errStr : PyError → String
  | .http exc => toString exc.status_code ++ ": " ++ exc.detail
  | .pyErr msg => msg

/-- The parts of a FastAPI `UploadFile` that `analyze_currency` reads. -/
structure UploadFileData where
  filename : String
  content_type : String
  bytes : List Nat

/-- One document of the `analysis` collection, as assembled by
`analyze_currency` (Mongo `_id` is not modelled; `get_analysis` pops it). -/
structure AnalysisDoc where
  id : String
  user_id : String
  openai_result : Json
  gemini_result : Json
  combined_analysis : Json
  timestamp : Nat
  filename : String

/-- The JSON body `analyze_currency` returns on success. -/
structure AnalyzeResponse where
  analysis_id : String
  openai_result : Json
  gemini_result : Json
  combined_analysis : Json
  timestamp : Nat

/-- The external effects of one `analyze_currency` request: the
`json.loads` oracle, the outcome of each provider chat call as a function
of the base64 image it is sent, whether `analysis_collection.insert_one`
succeeds, the fresh `uuid.uuid4` id and the `datetime.utcnow` timestamp. -/
structure AnalyzeEnv where
  loads : String → Option Json
  openai_call : String → CallOutcome
  gemini_call : String → CallOutcome
  insert_outcome : Except String Unit
  new_id : String
  now : Nat

/-- Body of `analyze_currency` inside its `try`: validate the MIME type
(`raise HTTPException(400, ...)` if it does not start with `image/`),
encode the image once, run both adapters on that one encoded string,
combine, build the analysis document, insert it, and return the response
together with the updated collection. An `.error` is the exception that
reaches the route's catch-all `except`. -/
def analyze_currency_body (env : AnalyzeEnv) (store : List AnalysisDoc)
    (file : UploadFileData) (current_user : String) :
    Except PyError (AnalyzeResponse × List AnalysisDoc) :=
  if py_startswith file.content_type "image/" then
    let image_base64 := convert_image_to_base64 file.bytes
    let openai_result := analyze_with_openai env.loads (env.openai_call image_base64)
    let gemini_result := analyze_with_gemini env.loads (env.gemini_call image_base64)
    match combine_ai_results openai_result gemini_result with
    | .error e => .error (.pyErr e)
    | .ok combined_analysis =>
      match env.insert_outcome with
      | .error e => .error (.pyErr e)
      | .ok _ =>
          .ok (⟨env.new_id, openai_result, gemini_result, combined_analysis, env.now⟩,
               store ++ [⟨env.new_id, current_user, openai_result, gemini_result,
                          combined_analysis, env.now, file.filename⟩])
  else
    .error (.http ⟨400, "File must be an image"⟩)

/-- `analyze_currency` (route `POST /api/analyze-currency`): the body above
wrapped in `except Exception as e: raise HTTPException(500, str(e))`.
Note the catch-all also intercepts the validation `HTTPException(400)`
raised inside the `try` and re-raises it with status 500. -/
def analyze_currency (env : AnalyzeEnv) (store : List AnalysisDoc)
    (file : UploadFileData) (current_user : String) :
    Except HTTPException (AnalyzeResponse × List AnalysisDoc) :=
  match analyze_currency_body env store file current_user with
  | .ok r => .ok r
  | .error e => .error ⟨500, errStr e⟩

/-- `get_analysis` (route `GET /api/analysis/{analysis_id}`): `find_one` on
the collection filtering by both the analysis id and the requesting user;
`HTTPException(404)` when nothing matches. -/
def get_analysis (store : List AnalysisDoc) (analysis_id : String)
    (current_user : String) : Except HTTPException AnalysisDoc :=
  match store.find? (fun d => d.id == analysis_id && d.user_id == current_user) with
  | some analysis => .ok analysis
  | none => .error ⟨404, "Analysis not found"⟩

/-- A concrete `json.loads` oracle used for concrete runs below; it agrees
with Python `json.loads` on the strings it is applied to: `"{}"` parses to
the empty object, `"42"` parses to the number 42, everything else fails. -/
def loadsToy : String → Option Json := fun s =>
  if s = "{}" then some (Json.obj [])
  else if s = "42" then some (Json.num 42)
  else none

/-- A valid image upload (PNG signature bytes, declared type `image/png`),
as in the test suite's `create_test_image`. -/
def pngFile : UploadFileData :=
  ⟨"test_currency.png", "image/png", [137, 80, 78, 71]⟩

/-- The non-image upload of `backend_test.py::test_invalid_file_upload`:
the bytes of `b"This is not an image file"` declared as `text/plain`. -/
def textFile : UploadFileData :=
  ⟨"test.txt", "text/plain",
   [84, 104, 105, 115, 32, 105, 115, 32, 110, 111, 116, 32, 97, 110, 32,
    105, 109, 97, 103, 101, 32, 102, 105, 108, 101]⟩

/-- A single USD detection entry, as in the spec's concrete scenario. -/
def usdDetection : Json :=
  Json.obj [("currency_type", Json.str "USD"), ("denomination", Json.str "20"),
            ("quantity", Json.num 1), ("confidence", Json.str "high")]

/-- A single EUR detection entry. -/
def eurDetection : Json :=
  Json.obj [("currency_type", Json.str "EUR"), ("denomination", Json.str "10"),
            ("quantity", Json.num 1), ("confidence", Json.str "medium")]

/-- A Structured OpenAI result with an empty detection list. -/
def emptyStructuredA : Json :=
  Json.obj [("currencies_detected", Json.arr []), ("total_value", Json.null),
            ("notes", Json.null), ("provider", Json.str openai_provider_label)]

/-- A Structured Gemini result with an empty detection list. -/
def emptyStructuredB : Json :=
  Json.obj [("currencies_detected", Json.arr []), ("total_value", Json.null),
            ("notes", Json.null), ("provider", Json.str gemini_provider_label)]

/-- A Structured OpenAI result with one detection. -/
def oneDetStructuredA : Json :=
  Json.obj [("currencies_detected", Json.arr [usdDetection]),
            ("provider", Json.str openai_provider_label)]

/-- A Structured Gemini result with one detection. -/
def oneDetStructuredB : Json :=
  Json.obj [("currencies_detected", Json.arr [usdDetection]),
            ("provider", Json.str gemini_provider_label)]

/-- A Structured Gemini result with two detections. -/
def twoDetStructuredB : Json :=
  Json.obj [("currencies_detected", Json.arr [usdDetection, eurDetection]),
            ("provider", Json.str gemini_provider_label)]

/-- Environment where the OpenAI call raises and the Gemini call returns a
response that parses to the empty JSON object; the insert succeeds. -/
def envToy : AnalyzeEnv :=
  ⟨loadsToy, fun _ => .raises "boom", fun _ => .success "{}", .ok (), "id-1", 0⟩

/-- Environment where both provider calls raise; the insert succeeds. -/
def envBothFail : AnalyzeEnv :=
  ⟨loadsToy, fun _ => .raises "openai down", fun _ => .raises "gemini down",
   .ok (), "id-2", 0⟩

/-- Environment where both provider calls succeed with parseable responses
but the Mongo insert fails. -/
def envInsertFail : AnalyzeEnv :=
  ⟨loadsToy, fun _ => .success "{}", fun _ => .success "{}",
   .error "db down", "id-3", 0⟩

/-- Environment where the OpenAI response is valid JSON that is not an
object (the bare number 42) and the Gemini response parses to an object;
the insert succeeds. -/
def envNum : AnalyzeEnv :=
  ⟨loadsToy, fun _ => .success "42", fun _ => .success "{}", .ok (), "id-4", 0⟩

/-- A persisted analysis owned by alice. -/
def docAlice : AnalysisDoc :=
  ⟨"id-a", "alice", Json.obj [], Json.obj [],
   combined_obj (Json.obj []) (Json.obj []) [] [], 0, "a.png"⟩

/-- A persisted analysis owned by bob. -/
def docBob : AnalysisDoc :=
  ⟨"id-b", "bob", Json.obj [], Json.obj [],
   combined_obj (Json.obj []) (Json.obj []) [] [], 1, "b.png"⟩

/-- A concrete store holding one analysis of alice and one of bob. -/
def storeToy : List AnalysisDoc := [docAlice, docBob]

/-- Projection of a route outcome to the returned `openai_result`
(`Json.null` on an HTTP error); used only to state concrete facts. -/
def respOpenai : Except HTTPException (AnalyzeResponse × List AnalysisDoc) → Json
  | .ok r => r.1.openai_result
  | .error _ => Json.null

/-- Projection of a route outcome to the returned `gemini_result`. -/
def respGemini : Except HTTPException (AnalyzeResponse × List AnalysisDoc) → Json
  | .ok r => r.1.gemini_result
  | .error _ => Json.null

/-- Projection of a route outcome to the returned `combined_analysis`. -/
def respCombined : Except HTTPException (AnalyzeResponse × List AnalysisDoc) → Json
  | .ok r => r.1.combined_analysis
  | .error _ => Json.null

/-- C1 counterexample: two Structured results whose detection lists both
have length zero. The guard `if openai_currencies and gemini_currencies`
is false on empty lists, so the combiner records nothing: the consensus
object is empty and in particular has no `currency_count_match` key,
contradicting the claim that equal length zero yields
`currency_count_match = true`. -/
theorem c1_counterexample :
    combine_ai_results emptyStructuredA emptyStructuredB =
      .ok (combined_obj emptyStructuredA emptyStructuredB [] []) ∧
    jGet? (combined_obj emptyStructuredA emptyStructuredB [] []) "consensus" =
      some (Json.obj []) ∧
    jGet? (Json.obj []) "currency_count_match" = none :=
  ⟨rfl, rfl, rfl⟩

/-- C1 (amended): for two results whose `currencies_detected` lists are
both non-empty and of equal length, the combiner sets
`consensus.currency_count_match = true` and leaves discrepancies empty. -/
theorem c1_amended (o g : Json) (ld gd : List Json)
    (ho : dict_get o "currencies_detected" (Json.arr []) = .ok (Json.arr ld))
    (hg : dict_get g "currencies_detected" (Json.arr []) = .ok (Json.arr gd))
    (hne : ld ≠ []) (hlen : ld.length = gd.length) :
    combine_ai_results o g =
      .ok (combined_obj o g [("currency_count_match", Json.bool true)] []) ∧
    jGet? (combined_obj o g [("currency_count_match", Json.bool true)] []) "consensus" =
      some (Json.obj [("currency_count_match", Json.bool true)]) ∧
    jGet? (combined_obj o g [("currency_count_match", Json.bool true)] []) "discrepancies" =
      some (Json.arr []) := by
  obtain ⟨a, la, rfl⟩ := List.exists_cons_of_ne_nil hne
  have hgd : gd ≠ [] := by
    intro h
    rw [h] at hlen
    simp at hlen
  obtain ⟨b, lb, rfl⟩ := List.exists_cons_of_ne_nil hgd
  refine ⟨?_, rfl, rfl⟩
  unfold combine_ai_results
  rw [ho, hg]
  simp [pyTruthy, pyLen, hlen]

/-- C1 witness: the spec's concrete scenario — both providers detect the
same single USD entry — in which the amended statement applies. -/
theorem c1_amended_witness :
    combine_ai_results oneDetStructuredA oneDetStructuredB =
      .ok (combined_obj oneDetStructuredA oneDetStructuredB
            [("currency_count_match", Json.bool true)] []) :=
  (c1_amended oneDetStructuredA oneDetStructuredB [usdDetection] [usdDetection]
    rfl rfl (List.cons_ne_nil _ _) rfl).1

/-- C2 counterexample: detection lists of length 0 and 1 (differing
lengths, one empty). The combiner adds no discrepancy at all — the
discrepancies list is empty, not the single entry the claim requires. -/
theorem c2_counterexample :
    combine_ai_results emptyStructuredA oneDetStructuredB =
      .ok (combined_obj emptyStructuredA oneDetStructuredB [] []) ∧
    jGet? (combined_obj emptyStructuredA oneDetStructuredB [] []) "discrepancies" =
      some (Json.arr []) :=
  ⟨rfl, rfl⟩

/-- C2 (amended): for two results whose `currencies_detected` lists are
both non-empty and of differing lengths, the combiner appends exactly one
discrepancy, "Different number of currencies detected", and the consensus
object stays empty (no `currency_count_match` key). -/
theorem c2_amended (o g : Json) (ld gd : List Json)
    (ho : dict_get o "currencies_detected" (Json.arr []) = .ok (Json.arr ld))
    (hg : dict_get g "currencies_detected" (Json.arr []) = .ok (Json.arr gd))
    (hlo : ld ≠ []) (hlg : gd ≠ []) (hlen : ld.length ≠ gd.length) :
    combine_ai_results o g =
      .ok (combined_obj o g [] [Json.str "Different number of currencies detected"]) ∧
    jGet? (combined_obj o g [] [Json.str "Different number of currencies detected"])
        "consensus" = some (Json.obj []) ∧
    jGet? (combined_obj o g [] [Json.str "Different number of currencies detected"])
        "discrepancies" =
      some (Json.arr [Json.str "Different number of currencies detected"]) := by
  obtain ⟨a, la, rfl⟩ := List.exists_cons_of_ne_nil hlo
  obtain ⟨b, lb, rfl⟩ := List.exists_cons_of_ne_nil hlg
  refine ⟨?_, rfl, rfl⟩
  unfold combine_ai_results
  rw [ho, hg]
  simp [pyTruthy, pyLen, hlen]
  intro h
  exact absurd (by simp [h]) hlen

/-- C2 witness: the spec's example of 1 vs 2 entries. -/
theorem c2_amended_witness :
    combine_ai_results oneDetStructuredA twoDetStructuredB =
      .ok (combined_obj oneDetStructuredA twoDetStructuredB
            [] [Json.str "Different number of currencies detected"]) :=
  (c2_amended oneDetStructuredA twoDetStructuredB [usdDetection] [usdDetection, eurDetection]
    rfl rfl (List.cons_ne_nil _ _) (List.cons_ne_nil _ _) (by simp)).1

/-- C3: a request whose declared MIME type is not an image is rejected
before any provider call — the result does not depend on the provider
environment at all — but the catch-all `except Exception` intercepts the
`HTTPException(400)` and re-raises it as status 500, so the caller sees
status 500 (with detail `"400: File must be an image"`) for a validation
failure, the same status class as a persistence failure, while the test
suite (`backend_test.py::test_invalid_file_upload`) expects status 400. -/
theorem c3_validation_swallowed (env : AnalyzeEnv) (store : List AnalysisDoc)
    (user : String) :
    analyze_currency env store textFile user =
      .error ⟨500, "400: File must be an image"⟩ := by
  have h : py_startswith textFile.content_type "image/" = false := by decide
  unfold analyze_currency analyze_currency_body
  rw [h]
  rfl

/-- C3 witness: the rejection at a fully concrete input. -/
theorem c3_witness :
    analyze_currency envToy storeToy textFile "alice" =
      .error ⟨500, "400: File must be an image"⟩ :=
  c3_validation_swallowed envToy storeToy "alice"

/-- C5: each provider adapter always returns a result and never propagates
an exception: a raised call error yields the `{"error": str(e), "provider":
...}` dict, a response that parses yields the parsed value verbatim, and a
response that fails to parse yields the `{"raw_response": ..., "provider":
...}` dict. -/
theorem c5_adapter_total (loads : String → Option Json) (o : CallOutcome) :
    (∀ e, o = .raises e →
        analyze_with_openai loads o =
          Json.obj [("error", Json.str e), ("provider", Json.str openai_provider_label)] ∧
        analyze_with_gemini loads o =
          Json.obj [("error", Json.str e), ("provider", Json.str gemini_provider_label)]) ∧
    (∀ resp j, o = .success resp → loads resp = some j →
        analyze_with_openai loads o = j ∧ analyze_with_gemini loads o = j) ∧
    (∀ resp, o = .success resp → loads resp = none →
        analyze_with_openai loads o =
          Json.obj [("raw_response", Json.str resp),
                    ("provider", Json.str openai_provider_label)] ∧
        analyze_with_gemini loads o =
          Json.obj [("raw_response", Json.str resp),
                    ("provider", Json.str gemini_provider_label)]) := by
  refine ⟨?_, ?_, ?_⟩
  · rintro e rfl
    exact ⟨rfl, rfl⟩
  · rintro resp j rfl hl
    constructor <;>
      simp [analyze_with_openai, analyze_with_openai_body,
            analyze_with_gemini, analyze_with_gemini_body, hl]
  · rintro resp rfl hl
    constructor <;>
      simp [analyze_with_openai, analyze_with_openai_body,
            analyze_with_gemini, analyze_with_gemini_body, hl]

/-- C5 witness: a raised OpenAI call converted to the Failed dict. -/
theorem c5_witness :
    analyze_with_openai loadsToy (CallOutcome.raises "network down") =
      Json.obj [("error", Json.str "network down"),
                ("provider", Json.str openai_provider_label)] :=
  ((c5_adapter_total loadsToy (CallOutcome.raises "network down")).1
    "network down" rfl).1

/-- Structure of every successful `analyze_currency` run: the image is
encoded once, both adapters receive that one encoded string, the combiner
runs on both completed adapter results, the insert succeeded, and the
response and stored document are assembled from those parts. -/
theorem analyze_currency_ok_shape (env : AnalyzeEnv) (store : List AnalysisDoc)
    (file : UploadFileData) (user : String) (r : AnalyzeResponse × List AnalysisDoc)
    (hok : analyze_currency env store file user = .ok r) :
    r.1.openai_result =
      analyze_with_openai env.loads (env.openai_call (convert_image_to_base64 file.bytes)) ∧
    r.1.gemini_result =
      analyze_with_gemini env.loads (env.gemini_call (convert_image_to_base64 file.bytes)) ∧
    combine_ai_results r.1.openai_result r.1.gemini_result = .ok r.1.combined_analysis ∧
    env.insert_outcome = .ok () ∧
    r.1.analysis_id = env.new_id ∧
    r.1.timestamp = env.now ∧
    r.2 = store ++ [⟨env.new_id, user, r.1.openai_result, r.1.gemini_result,
                     r.1.combined_analysis, env.now, file.filename⟩] := by
  unfold analyze_currency at hok
  split at hok
  · next val heq =>
      injection hok with h
      subst h
      simp only [analyze_currency_body] at heq
      split at heq
      · split at heq
        · exact Except.noConfusion heq
        · next c hcomb =>
            split at heq
            · exact Except.noConfusion heq
            · next u hins =>
                injection heq with h2
                subst h2
                cases u
                exact ⟨rfl, rfl, hcomb, hins, rfl, rfl, rfl⟩
      · exact Except.noConfusion heq
  · exact Except.noConfusion hok

/-- C4 counterexample: a provider response that parses as the JSON object
`{}` is returned verbatim by the adapter, so the resulting Structured value
has no `provider` key — nothing adds one on the parse-success path. -/
theorem c4_counterexample :
    analyze_with_openai loadsToy (CallOutcome.success "{}") = Json.obj [] ∧
    jGet? (analyze_with_openai loadsToy (CallOutcome.success "{}")) "provider" = none :=
  ⟨rfl, rfl⟩

/-- C4 (amended): every successful analyze run returns exactly one result
per provider — the corresponding adapter's output on the shared encoded
image — and the adapter-constructed RawFallback and Failed variants always
carry the `provider` field; the Structured variant is the parsed response
verbatim, so it carries `provider` only when the parsed JSON contains it. -/
theorem c4_amended (env : AnalyzeEnv) (store : List AnalysisDoc)
    (file : UploadFileData) (user : String) (r : AnalyzeResponse × List AnalysisDoc)
    (hok : analyze_currency env store file user = .ok r) :
    r.1.openai_result =
      analyze_with_openai env.loads (env.openai_call (convert_image_to_base64 file.bytes)) ∧
    r.1.gemini_result =
      analyze_with_gemini env.loads (env.gemini_call (convert_image_to_base64 file.bytes)) ∧
    (∀ e, env.openai_call (convert_image_to_base64 file.bytes) = .raises e →
        jGet? r.1.openai_result "provider" = some (Json.str openai_provider_label)) ∧
    (∀ resp, env.openai_call (convert_image_to_base64 file.bytes) = .success resp →
        env.loads resp = none →
        jGet? r.1.openai_result "provider" = some (Json.str openai_provider_label)) ∧
    (∀ resp j, env.openai_call (convert_image_to_base64 file.bytes) = .success resp →
        env.loads resp = some j → r.1.openai_result = j) ∧
    (∀ e, env.gemini_call (convert_image_to_base64 file.bytes) = .raises e →
        jGet? r.1.gemini_result "provider" = some (Json.str gemini_provider_label)) ∧
    (∀ resp, env.gemini_call (convert_image_to_base64 file.bytes) = .success resp →
        env.loads resp = none →
        jGet? r.1.gemini_result "provider" = some (Json.str gemini_provider_label)) ∧
    (∀ resp j, env.gemini_call (convert_image_to_base64 file.bytes) = .success resp →
        env.loads resp = some j → r.1.gemini_result = j) := by
  obtain ⟨h1, h2, -, -, -, -, -⟩ := analyze_currency_ok_shape env store file user r hok
  refine ⟨h1, h2, ?_, ?_, ?_, ?_, ?_, ?_⟩
  · intro e he
    rw [h1, he]
    rfl
  · intro resp hresp hl
    rw [h1, hresp]
    simp only [analyze_with_openai, analyze_with_openai_body, hl, jGet?]
    rfl
  · intro resp j hresp hl
    rw [h1, hresp]
    simp [analyze_with_openai, analyze_with_openai_body, hl]
  · intro e he
    rw [h2, he]
    rfl
  · intro resp hresp hl
    rw [h2, hresp]
    simp only [analyze_with_gemini, analyze_with_gemini_body, hl, jGet?]
    rfl
  · intro resp j hresp hl
    rw [h2, hresp]
    simp [analyze_with_gemini, analyze_with_gemini_body, hl]

/-- C4 witness: a concrete run in which the OpenAI call raises; the
returned OpenAI result carries the provider tag. -/
theorem c4_witness :
    jGet? (respOpenai (analyze_currency envToy [] pngFile "alice")) "provider" =
      some (Json.str openai_provider_label) := by
  have h := c4_amended envToy [] pngFile "alice" _ rfl
  exact h.2.2.1 "boom" rfl

/-- C6: when both provider calls raise, analyze still succeeds: both Failed
dicts reach the combiner, which extracts empty detection lists, records no
consensus entry and no discrepancy, and the document is still inserted. -/
theorem c6_both_failed (env : AnalyzeEnv) (store : List AnalysisDoc)
    (file : UploadFileData) (user e1 e2 : String)
    (hmime : py_startswith file.content_type "image/" = true)
    (ho : env.openai_call (convert_image_to_base64 file.bytes) = CallOutcome.raises e1)
    (hg : env.gemini_call (convert_image_to_base64 file.bytes) = CallOutcome.raises e2)
    (hins : env.insert_outcome = .ok ()) :
    ∃ r : AnalyzeResponse × List AnalysisDoc,
      analyze_currency env store file user = .ok r ∧
      jGet? r.1.combined_analysis "consensus" = some (Json.obj []) ∧
      jGet? r.1.combined_analysis "discrepancies" = some (Json.arr []) ∧
      r.2 = store ++ [⟨env.new_id, user, r.1.openai_result, r.1.gemini_result,
                       r.1.combined_analysis, env.now, file.filename⟩] := by
  refine ⟨(⟨env.new_id,
            Json.obj [("error", Json.str e1), ("provider", Json.str openai_provider_label)],
            Json.obj [("error", Json.str e2), ("provider", Json.str gemini_provider_label)],
            combined_obj
              (Json.obj [("error", Json.str e1), ("provider", Json.str openai_provider_label)])
              (Json.obj [("error", Json.str e2), ("provider", Json.str gemini_provider_label)])
              [] [],
            env.now⟩,
           store ++ [⟨env.new_id, user,
            Json.obj [("error", Json.str e1), ("provider", Json.str openai_provider_label)],
            Json.obj [("error", Json.str e2), ("provider", Json.str gemini_provider_label)],
            combined_obj
              (Json.obj [("error", Json.str e1), ("provider", Json.str openai_provider_label)])
              (Json.obj [("error", Json.str e2), ("provider", Json.str gemini_provider_label)])
              [] [],
            env.now, file.filename⟩]), ?_, rfl, rfl, rfl⟩
  simp only [analyze_currency, analyze_currency_body, hmime, ho, hg, hins]
  rfl

/-- C6 witness: the fully concrete both-providers-down run. -/
theorem c6_witness :
    jGet? (respCombined (analyze_currency envBothFail [] pngFile "alice")) "consensus" =
      some (Json.obj []) ∧
    jGet? (respCombined (analyze_currency envBothFail [] pngFile "alice")) "discrepancies" =
      some (Json.arr []) := by
  obtain ⟨r, hrun, hcons, hdisc, -⟩ :=
    c6_both_failed envBothFail [] pngFile "alice" "openai down" "gemini down"
      (by decide) rfl rfl rfl
  rw [hrun]
  exact ⟨hcons, hdisc⟩

/-- C7: when the Mongo insert fails, the whole analyze operation is
reported to the caller as a status-500 failure carrying the store error,
even though both provider calls succeeded with parseable responses. -/
theorem c7_persistence_failure (env : AnalyzeEnv) (store : List AnalysisDoc)
    (file : UploadFileData) (user msg resp1 resp2 : String) (j1 j2 c : Json)
    (hmime : py_startswith file.content_type "image/" = true)
    (ho : env.openai_call (convert_image_to_base64 file.bytes) = CallOutcome.success resp1)
    (hl1 : env.loads resp1 = some j1)
    (hg : env.gemini_call (convert_image_to_base64 file.bytes) = CallOutcome.success resp2)
    (hl2 : env.loads resp2 = some j2)
    (hcomb : combine_ai_results j1 j2 = .ok c)
    (hins : env.insert_outcome = .error msg) :
    analyze_currency env store file user = .error ⟨500, msg⟩ := by
  have hA : analyze_with_openai env.loads
      (env.openai_call (convert_image_to_base64 file.bytes)) = j1 := by
    rw [ho]
    simp [analyze_with_openai, analyze_with_openai_body, hl1]
  have hB : analyze_with_gemini env.loads
      (env.gemini_call (convert_image_to_base64 file.bytes)) = j2 := by
    rw [hg]
    simp [analyze_with_gemini, analyze_with_gemini_body, hl2]
  simp only [analyze_currency, analyze_currency_body, hmime, hA, hB, hcomb, hins]
  rfl

/-- C7 witness: both providers answer `{}` yet the run fails with the
store's error once the insert is refused. -/
theorem c7_witness :
    analyze_currency envInsertFail [] pngFile "alice" = .error ⟨500, "db down"⟩ :=
  c7_persistence_failure envInsertFail [] pngFile "alice" "db down" "{}" "{}"
    (Json.obj []) (Json.obj []) (combined_obj (Json.obj []) (Json.obj []) [] [])
    (by decide) rfl rfl rfl rfl rfl rfl

/-- C8: a single read returns a stored record only when the requester owns
it, and when no stored record matches both the id and the requesting user
the route answers 404 — never another user's record. -/
theorem c8_owner_scoped_read (store : List AnalysisDoc) (analysis_id user : String) :
    (∀ a, get_analysis store analysis_id user = .ok a →
        a ∈ store ∧ a.id = analysis_id ∧ a.user_id = user) ∧
    ((∀ a ∈ store, ¬ (a.id = analysis_id ∧ a.user_id = user)) →
        get_analysis store analysis_id user = .error ⟨404, "Analysis not found"⟩) := by
  constructor
  · intro a ha
    unfold get_analysis at ha
    split at ha
    · next b hfind =>
        injection ha with h
        subst h
        have hmem := List.mem_of_find?_eq_some hfind
        have hp := List.find?_some hfind
        simp only [Bool.and_eq_true, beq_iff_eq] at hp
        exact ⟨hmem, hp.1, hp.2⟩
    · exact Except.noConfusion ha
  · intro hnone
    unfold get_analysis
    have hfind : store.find? (fun d => d.id == analysis_id && d.user_id == user) = none := by
      rw [List.find?_eq_none]
      intro x hx
      simp only [Bool.and_eq_true, beq_iff_eq, not_and]
      intro h1 h2
      exact hnone x hx ⟨h1, h2⟩
    rw [hfind]

/-- C8 witness: in a store holding one record of alice and one of bob,
alice reads her record, bob's lookup of the same id is 404, and a lookup of
an absent id is 404. -/
theorem c8_witness :
    get_analysis storeToy "id-a" "alice" = .ok docAlice ∧
    get_analysis storeToy "id-a" "bob" = .error ⟨404, "Analysis not found"⟩ ∧
    get_analysis storeToy "id-missing" "alice" = .error ⟨404, "Analysis not found"⟩ := by
  refine ⟨rfl, ?_, ?_⟩
  · exact (c8_owner_scoped_read storeToy "id-a" "bob").2 (by decide)
  · exact (c8_owner_scoped_read storeToy "id-missing" "alice").2 (by decide)

/-- C9: in every successful analyze run the image is encoded once and both
adapters are applied to that one encoded string, and the combiner runs on
the two completed adapter results — so one adapter's Failed result never
suppresses the other's result. -/
theorem c9_single_encode_joined (env : AnalyzeEnv) (store : List AnalysisDoc)
    (file : UploadFileData) (user : String) (r : AnalyzeResponse × List AnalysisDoc)
    (hok : analyze_currency env store file user = .ok r) :
    r.1.openai_result =
      analyze_with_openai env.loads (env.openai_call (convert_image_to_base64 file.bytes)) ∧
    r.1.gemini_result =
      analyze_with_gemini env.loads (env.gemini_call (convert_image_to_base64 file.bytes)) ∧
    combine_ai_results r.1.openai_result r.1.gemini_result = .ok r.1.combined_analysis := by
  obtain ⟨h1, h2, h3, -, -, -, -⟩ := analyze_currency_ok_shape env store file user r hok
  exact ⟨h1, h2, h3⟩

/-- C9 witness: with the OpenAI call raising and the Gemini call
succeeding, the returned Gemini result is exactly the Gemini adapter's
output on the single encoded image. -/
theorem c9_witness :
    respGemini (analyze_currency envToy [] pngFile "alice") =
      analyze_with_gemini envToy.loads
        (envToy.gemini_call (convert_image_to_base64 pngFile.bytes)) := by
  have h := c9_single_encode_joined envToy [] pngFile "alice" _ rfl
  exact h.2.1

/-- C10: a provider response that is valid JSON but not an object — here
the bare number 42 — is returned unchanged by the adapter; the combiner's
`.get` on it raises `AttributeError`, and the whole analyze operation is
reported as a status-500 failure although both provider calls succeeded. -/
theorem c10_nonobject_json_fails :
    analyze_with_openai loadsToy (CallOutcome.success "42") = Json.num 42 ∧
    combine_ai_results (Json.num 42) (Json.obj []) =
      .error "\x27int\x27 object has no attribute \x27get\x27" ∧
    analyze_currency envNum [] pngFile "alice" =
      .error ⟨500, "\x27int\x27 object has no attribute \x27get\x27"⟩ :=
  ⟨rfl, rfl, rfl⟩

end CurrencyRecognition
